import Mathlib

/-!
Shallow embedding of the realtime notification / event-routing subsystem of
the repository's frontend (Layout.tsx, Chat.tsx, Dashboard.tsx, the
WebSocket context) together with theorems settling the frozen claims.

Timestamps are modelled as `Int` milliseconds since the epoch.  JavaScript
objects with optional fields are modelled with `Option`; JS truthiness of a
string (`s || d`) is modelled explicitly.
-/

/-- JS `a || b` for a possibly-absent string: an absent or empty string is
falsy and falls through to the default. -/
def jsOrElseStr (a : Option String) (b : String) : String :=
  match a with
  | some s => if s = "" then b else s
  | none => b

/-- JS `a || b` for a possibly-absent number: absent or `0` falls through. -/
def jsOrElseInt (a : Option Int) (b : Int) : Int :=
  match a with
  | some t => if t = 0 then b else t
  | none => b

/-- Layout.tsx `StoredNotification`: one persistent bell-notification record
(`deployment_details` is kept as an opaque string blob, it never takes part
in any comparison). -/
structure StoredNotification where
  id : String
  title : String
  message : String
  ntype : String
  timestamp : Int
  read : Bool
  details : String
deriving DecidableEq, Repr

/-- The Layout component's notification-relevant state: the in-memory store,
the unread badge count, the persisted copy (`localStorage
'layout_notifications'`, absent until first written), the poller checkpoint
id set (`'fetched_notification_ids'`), and the snackbar. -/
structure LayoutState where
  storedNotifications : List StoredNotification
  notificationCount : Nat
  persisted : Option (List StoredNotification)
  fetchedIds : List Nat
  snackbarMessage : String
  snackbarSeverity : String
  snackbarOpen : Bool
deriving DecidableEq, Repr

/-- Character scanner for the JS regex replacement
`message.replace(/PR #\d+/g, 'Pull Request')`: a left-to-right scan; in
skip mode (second argument `true`) leading digits belong to an already
replaced match and are dropped.  The `Nat` argument is recursion fuel; the
caller supplies the input length, which each step strictly consumes, so the
fuel-exhausted branch is unreachable. -/
def prReplaceScan : Nat → Bool → List Char → List Char
  | 0, _, l => l
  | _, _, [] => []
  | f + 1, skip, c :: rest =>
    if skip && c.isDigit then prReplaceScan f true rest
    else
      match c, rest with
      | 'P', 'R' :: ' ' :: '#' :: d :: rest2 =>
        if d.isDigit then
          ("Pull Request".data) ++ prReplaceScan f true (d :: rest2)
        else
          'P' :: prReplaceScan f false ('R' :: ' ' :: '#' :: d :: rest2)
      | _, _ => c :: prReplaceScan f false rest

/-- The JS call `message.replace(/PR #\d+/g, 'Pull Request')` from Layout.tsx. -/
def replacePRrefs (s : String) : String :=
  String.mk (prReplaceScan s.data.length false s.data)

/-- Whether `hay` starts with `needle` (over char lists). -/
def charStartsWith : List Char → List Char → Bool
  | _, [] => true
  | [], _ :: _ => false
  | h :: hs, n :: ns => h == n && charStartsWith hs ns

/-- JS `hay.includes(needle)`: `needle` occurs as a contiguous substring. -/
def strIncludes (hay needle : String) : Bool :=
  go hay.data needle.data
where
  go : List Char → List Char → Bool
    | [], needle => needle.isEmpty
    | h :: hs, needle => charStartsWith (h :: hs) needle || go hs needle

/-- The messageId computation of Layout.tsx handleWebSocketMessage: the
explicit `data.message_id` when truthy, else the synthesized
type-underscore-timestamp id (with `Date.now()` as the timestamp default). -/
def mkMessageId (message_id : Option String) (etype : String)
    (ts : Option Int) (now : Int) : String :=
  jsOrElseStr message_id (etype ++ "_" ++ toString (jsOrElseInt ts now))

/-- Wire payload of a push `notification` event as consumed by Layout.tsx. -/
structure NotificationEvent where
  message_id : Option String
  timestamp : Option Int
  title : String
  message : String
  notification_type : String
  payload : String
deriving DecidableEq, Repr

/-- The bell notification Layout.tsx builds from a push `notification`
event: id `bell_<messageId>`, the PR-reference rewrite applied to the
message, severity folded to success/error/info, creation time = now. -/
def mkBellNotification (d : NotificationEvent) (messageId : String)
    (now : Int) : StoredNotification :=
  { id := "bell_" ++ messageId
    title := d.title
    message := replacePRrefs d.message
    ntype :=
      if d.notification_type = "success" then "success"
      else if d.notification_type = "error" then "error" else "info"
    timestamp := now
    read := false
    details := d.payload }

/-- Split a character list at every `'_'`, preserving empty segments
(the semantics of JS `String.prototype.split('_')`). -/
def splitUnderscore : List Char → List (List Char)
  | [] => [[]]
  | c :: rest =>
    let r := splitUnderscore rest
    if c = '_' then [] :: r
    else
      match r with
      | [] => [[c]]
      | h :: t => (c :: h) :: t

/-- JS `messageId.split('_')[1]`. -/
def splitSecondSegment (s : String) : Option String :=
  ((splitUnderscore s.data).map String.mk).get? 1

/-- JS `n.id.includes(x)` where `x` may be `undefined`: `includes` coerces
`undefined` to the string "undefined". -/
def jsIncludesArg (o : Option String) : String :=
  o.getD "undefined"

/-- The push-merge duplicate test of Layout.tsx: same title and message
within 10 s, OR the stored id contains (as a substring) the second
underscore-separated segment of the incoming messageId. -/
def isPushDuplicate (prev : List StoredNotification)
    (bell : StoredNotification) (messageId : String) : Bool :=
  prev.any fun n =>
    let sameContent := n.title = bell.title && n.message = bell.message
    let recentTime := (n.timestamp - bell.timestamp).natAbs < 10000
    let sameId :=
      if messageId = "" then false
      else strIncludes n.id (jsIncludesArg (splitSecondSegment messageId))
    (sameContent && recentTime) || sameId

/-- The `setStoredNotifications` updater of the push `notification` branch:
drop duplicates; otherwise prepend, truncate to 15, recompute the unread
count and persist. -/
def pushNotificationMerge (st : LayoutState) (bell : StoredNotification)
    (messageId : String) : LayoutState :=
  if isPushDuplicate st.storedNotifications bell messageId then st
  else
    let updated := (bell :: st.storedNotifications).take 15
    let unread := (updated.filter fun n => !n.read).length
    { st with
      storedNotifications := updated
      notificationCount := unread
      persisted := some updated }

/-- A row of the `GET notifications` response used by
fetchOfflineNotifications. -/
structure DbNotification where
  id : Nat
  title : String
  message : String
  status : String
  created_at : Int
  is_read : Bool
  payload : String
deriving DecidableEq, Repr

/-- Conversion of a database notification row into a stored notification
(`db_<id>` id, verbatim message, status folded to severity). -/
def convertDb (n : DbNotification) : StoredNotification :=
  { id := "db_" ++ toString n.id
    title := n.title
    message := n.message
    ntype :=
      if n.status = "deployed" then "success"
      else if n.status = "failed" then "error" else "info"
    timestamp := n.created_at
    read := false
    details := n.payload }

/-- The poll-path content duplicate test: same title and message with
creation times within 30 s. -/
def isContentDup30 (stored : List StoredNotification)
    (x : StoredNotification) : Bool :=
  stored.any fun e =>
    e.title = x.title && e.message = x.message &&
      (e.timestamp - x.timestamp).natAbs < 30000

/-- The first filter of fetchOfflineNotifications: rows created in the last
two hours, unread server-side, and not in the imported-id checkpoint. -/
def pollFreshRows (db : List DbNotification) (fetchedIds : List Nat)
    (now : Int) : List DbNotification :=
  db.filter fun n =>
    decide (now - 7200000 < n.created_at) && !n.is_read &&
      !(fetchedIds.contains n.id)

/-- The `uniqueNew` list of fetchOfflineNotifications: converted fresh rows
that are not 30 s-content-duplicates of the current store. -/
def pollUniqueNew (st : LayoutState) (db : List DbNotification)
    (now : Int) : List StoredNotification :=
  ((pollFreshRows db st.fetchedIds now).map convertDb).filter fun x =>
    !(isContentDup30 st.storedNotifications x)

/-- Outcome of one poller run: the new layout state, the popup fired (if
any), and whether the notification sound played. -/
structure PollResult where
  state : LayoutState
  popup : Option StoredNotification
  soundPlayed : Bool
deriving DecidableEq, Repr

/-- One run of Layout.tsx `fetchOfflineNotifications` on a successful
fetch `db`: filter by time window / read state / imported-id checkpoint,
convert, fire one popup for the head of the deduplicated list, merge the
deduplicated list into the store (cap 20), and append all fresh row ids to
the checkpoint. -/
def fetchOfflineNotifications (st : LayoutState) (db : List DbNotification)
    (now : Int) (soundEnabled : Bool) : PollResult :=
  let newNotifications := pollFreshRows db st.fetchedIds now
  if newNotifications.length > 0 then
    let uniqueNewPopup := pollUniqueNew st db now
    let popup := uniqueNewPopup.head?
    let stPopup :=
      match uniqueNewPopup with
      | [] => st
      | x :: _ =>
        { st with
          snackbarMessage := x.message
          snackbarSeverity := x.ntype
          snackbarOpen := true }
    let uniqueNew := pollUniqueNew st db now
    let stMerged :=
      if uniqueNew.length = 0 then stPopup
      else
        let updated := (uniqueNew ++ st.storedNotifications).take 20
        { stPopup with
          storedNotifications := updated
          notificationCount := (updated.filter fun n => !n.read).length
          persisted := some updated }
    let stFinal :=
      { stMerged with
        fetchedIds := st.fetchedIds ++ newNotifications.map (·.id) }
    { state := stFinal
      popup := popup
      soundPlayed := soundEnabled && !uniqueNewPopup.isEmpty }
  else
    { state := st, popup := none, soundPlayed := false }

/-- Externally visible steps taken by the acknowledgment operations, in
execution order: a write of the in-memory + durable local state, a remote
HTTP call, or the logging of a swallowed remote error. -/
inductive AckAction
  | localWrite
  | remoteCall
  | errorLogged
deriving DecidableEq, Repr

/-- The purely local part of `markNotificationAsRead`: flip `read` on the
matching entry, recompute the badge count, persist. -/
def markReadLocal (st : LayoutState) (id : String) : LayoutState :=
  let updated := st.storedNotifications.map fun n =>
    if n.id = id then { n with read := true } else n
  { st with
    storedNotifications := updated
    notificationCount := (updated.filter fun n => !n.read).length
    persisted := some updated }

/-- Layout.tsx `markNotificationAsRead`: local update first; then, only for
database-backed ids (`db_` prefixed), a best-effort remote mark-read whose
failure is only logged. -/
def markNotificationAsRead (st : LayoutState) (id : String)
    (remoteOk : Bool) : LayoutState × List AckAction :=
  let st1 := markReadLocal st id
  if id.startsWith "db_" then
    if remoteOk then (st1, [AckAction.localWrite, AckAction.remoteCall])
    else (st1, [AckAction.localWrite, AckAction.remoteCall, AckAction.errorLogged])
  else (st1, [AckAction.localWrite])

/-- The purely local part of `markAllNotificationsAsRead`. -/
def markAllReadLocal (st : LayoutState) : LayoutState :=
  let updated := st.storedNotifications.map fun n => { n with read := true }
  { st with
    storedNotifications := updated
    notificationCount := 0
    persisted := some updated }

/-- Layout.tsx `markAllNotificationsAsRead`: local update first, then a
best-effort remote mark-all-read whose failure is only logged. -/
def markAllNotificationsAsRead (st : LayoutState)
    (remoteOk : Bool) : LayoutState × List AckAction :=
  let st1 := markAllReadLocal st
  if remoteOk then (st1, [AckAction.localWrite, AckAction.remoteCall])
  else (st1, [AckAction.localWrite, AckAction.remoteCall, AckAction.errorLogged])

/-- Layout.tsx `clearAllNotifications`: the remote clear-all is awaited
FIRST (its failure is only logged), and afterwards the local store, badge
count, persisted list and the poller checkpoint are cleared
unconditionally. -/
def clearAllNotifications (st : LayoutState)
    (remoteOk : Bool) : LayoutState × List AckAction :=
  let st1 :=
    { st with
      storedNotifications := []
      notificationCount := 0
      persisted := none
      fetchedIds := [] }
  if remoteOk then (st1, [AckAction.remoteCall, AckAction.localWrite])
  else (st1, [AckAction.remoteCall, AckAction.errorLogged, AckAction.localWrite])

/-- What the Layout mount effect registers: the poll interval delay, the
window event listeners it installs, and whether it fetches once on mount. -/
structure LayoutPollingSetup where
  pollDelayMs : Nat
  windowListeners : List String
  wsListeners : List String
  initialFetchOnMount : Bool
deriving DecidableEq, Repr

/-- The registrations made by the Layout notification effect: a 30000 ms
interval, a window `storage` listener, a WebSocket `message` listener, and
one immediate fetch on mount. -/
def layoutPollingSetup : LayoutPollingSetup :=
  { pollDelayMs := 30000
    windowListeners := ["storage"]
    wsListeners := ["message"]
    initialFetchOnMount := true }

/-- The guard inside each poll tick: fetch only while real-time updates are
enabled and the document is visible. -/
def pollTickRuns (realTimeUpdates : Bool) (visibilityState : String) : Bool :=
  realTimeUpdates && visibilityState == "visible"

/-- The reconnect decision of the WebSocket context `onclose` handler:
`some d` means exactly one reconnect is scheduled after `d` ms.  Codes
1000 (normal), 1001 (going away), 1005 (no status) and 1012 (service
restart / reload) suppress reconnection; any other code schedules one
reconnect after 1000 ms provided a user is present and a token is stored. -/
def wsOnCloseReconnect (code : Nat) (userPresent : Bool)
    (tokenPresent : Bool) : Option Nat :=
  if code ≠ 1000 && code ≠ 1001 && code ≠ 1005 && code ≠ 1012 &&
      userPresent && tokenPresent then
    some 1000
  else none


/-- A chat transcript message (Chat.tsx `Message`); buttons are kept as
their labels. -/
structure ChatMessage where
  id : String
  mtype : String
  content : String
  timestamp : Int
  buttons : List String
deriving DecidableEq, Repr

/-- Wire payloads the Chat.tsx WebSocket handler dispatches on. -/
inductive ChatWsEvent
  | connectionReady (message_id : Option String) (timestamp : Option Int)
  | chatResponse (message : String) (buttons : List String)
      (show_text_input : Option Bool) (greeting : Bool)
      (message_id : Option String) (timestamp : Option Int)
  | popupNotification (message_id : Option String) (timestamp : Option Int)
  | approvalNotification (approved : Bool) (message : String)
      (message_id : Option String) (timestamp : Option Int)
deriving DecidableEq, Repr

/-- The wire `type` discriminator of a chat event. -/
def ChatWsEvent.typeName : ChatWsEvent → String
  | .connectionReady _ _ => "connection_ready"
  | .chatResponse _ _ _ _ _ _ => "chat_response"
  | .popupNotification _ _ => "popup_notification"
  | .approvalNotification _ _ _ _ => "approval_notification"

/-- The explicit `message_id` field of a chat event, when present. -/
def ChatWsEvent.messageIdField : ChatWsEvent → Option String
  | .connectionReady m _ => m
  | .chatResponse _ _ _ _ m _ => m
  | .popupNotification m _ => m
  | .approvalNotification _ _ m _ => m

/-- The wire `timestamp` field of a chat event, when present. -/
def ChatWsEvent.timestampField : ChatWsEvent → Option Int
  | .connectionReady _ t => t
  | .chatResponse _ _ _ _ _ t => t
  | .popupNotification _ t => t
  | .approvalNotification _ _ _ t => t

/-- Chat.tsx messageId computation: the explicit `message_id`, else the
synthesized `type_timestamp_random` id (the random suffix is passed in). -/
def mkChatMessageId (e : ChatWsEvent) (now : Int) (rand : String) : String :=
  jsOrElseStr e.messageIdField
    (e.typeName ++ "_" ++ toString (jsOrElseInt e.timestampField now) ++ "_" ++ rand)

/-- The Chat component state touched by its WebSocket handler: the
seen-message-id cache, the transcript, the tab-scoped transcript copy in
sessionStorage, the localStorage notification list written by
`addToLayoutNotifications`, and the three UI flags. -/
structure ChatComponentState where
  processed : List String
  messages : List ChatMessage
  savedMessages : Option (List ChatMessage)
  layoutNotifications : List StoredNotification
  greetingShown : Bool
  processing : Bool
  showTextInput : Bool
deriving DecidableEq, Repr

/-- External effects of the chat handler (scheduling a `refreshUser`). -/
inductive ChatEffect
  | refreshUserScheduled
deriving DecidableEq, Repr

/-- Chat.tsx `addToLayoutNotifications`: prepend to the persisted layout
list unless a content duplicate within 5 s exists; truncate at 50. -/
def addToLayoutNotifications (stored : List StoredNotification)
    (id title message ntype : String) (now : Int) : List StoredNotification :=
  let newNotification : StoredNotification :=
    { id := id, title := title, message := message, ntype := ntype
      timestamp := now, read := false, details := "" }
  let isDuplicate := stored.any fun n =>
    n.title = newNotification.title && n.message = newNotification.message &&
      (n.timestamp - newNotification.timestamp).natAbs < 5000
  if isDuplicate then stored
  else (newNotification :: stored).take 50

/-- Chat.tsx `addMessage`: append to the transcript and mirror it into
sessionStorage. -/
def chatAddMessage (st : ChatComponentState) (mtype content : String)
    (buttons : List String) (now : Int) (rand : String) : ChatComponentState :=
  let m : ChatMessage :=
    { id := toString now ++ "_" ++ rand, mtype := mtype, content := content
      timestamp := now, buttons := buttons }
  let updated := st.messages ++ [m]
  { st with messages := updated, savedMessages := some updated }

/-- Chat.tsx `handleMessage`: compute the messageId; a messageId already in
the processed set is discarded with no state change and no effect;
otherwise it is recorded (pruning the cache to its most recent 25 once it
exceeds 50) and the event is dispatched by kind. -/
def chatHandleMessage (st : ChatComponentState) (e : ChatWsEvent)
    (now : Int) (rand : String) : ChatComponentState × List ChatEffect :=
  let messageId := mkChatMessageId e now rand
  if st.processed.contains messageId then (st, [])
  else
    let processed1 := st.processed ++ [messageId]
    let processed2 :=
      if processed1.length > 50 then processed1.drop (processed1.length - 25)
      else processed1
    let st1 := { st with processed := processed2 }
    match e with
    | .connectionReady _ _ => ({ st1 with greetingShown := true }, [])
    | .chatResponse message buttons show_text_input greeting _ _ =>
      let st2 := chatAddMessage st1 "bot" message buttons now rand
      let st3 :=
        { st2 with
          processing := false
          showTextInput := show_text_input ≠ some false
          greetingShown := if greeting then true else st2.greetingShown }
      (st3, [])
    | .popupNotification _ _ => (st1, [])
    | .approvalNotification approved message _ _ =>
      let title :=
        if approved then "Environment Access Approved!"
        else "Environment Access Denied"
      let ntype := if approved then "success" else "error"
      let st2 :=
        { st1 with
          layoutNotifications :=
            addToLayoutNotifications st1.layoutNotifications
              (toString now) title message ntype now }
      let marker := if approved then "✅ " else "❌ "
      let st3 := chatAddMessage st2 "bot" (marker ++ message) [] now rand
      (st3, if approved then [ChatEffect.refreshUserScheduled] else [])

/-- The wire payload of a push `popup_notification` event (Layout.tsx). -/
structure PopupEvent where
  popup_id : String
  title : String
  message : String
  ptype : Option String
  message_id : Option String
  timestamp : Option Int
deriving DecidableEq, Repr

/-- External effects of the Layout WebSocket handler. -/
inductive LayoutEffect
  | popupShown (message severity : String)
  | soundPlayed
  | popupDelivered (popup_id message_id : String)
deriving DecidableEq, Repr

/-- Layout.tsx `handleWebSocketMessage` on a `popup_notification` event:
the computed messageId is never checked against any seen-id cache - the
snackbar is shown on every delivery, the sound plays if enabled, and a
delivery confirmation is sent when the socket is present. -/
def layoutHandlePopup (st : LayoutState) (e : PopupEvent) (now : Int)
    (soundEnabled wsPresent : Bool) : LayoutState × List LayoutEffect :=
  let messageId := mkMessageId e.message_id "popup_notification" e.timestamp now
  let severity := jsOrElseStr e.ptype "info"
  let st1 :=
    { st with
      snackbarMessage := e.message
      snackbarSeverity := severity
      snackbarOpen := true }
  (st1,
    [LayoutEffect.popupShown e.message severity] ++
      (if soundEnabled then [LayoutEffect.soundPlayed] else []) ++
      (if wsPresent then [LayoutEffect.popupDelivered e.popup_id messageId] else []))

/-- Layout.tsx `handleWebSocketMessage` on a `notification` event: build
the bell notification from the computed messageId and merge it. -/
def layoutHandleNotification (st : LayoutState) (d : NotificationEvent)
    (now : Int) : LayoutState :=
  let messageId := mkMessageId d.message_id "notification" d.timestamp now
  pushNotificationMerge st (mkBellNotification d messageId now) messageId

/-- A dashboard infrastructure-request summary (Dashboard.tsx `Request`),
modelled as a JS object: every field may be absent.  `resources` is kept as
an opaque blob since `{ ...req, ...update }` merges it shallowly. -/
structure ReqObj where
  id : Option String
  request_identifier : Option String
  cloud_provider : Option String
  environment : Option String
  resource_type : Option String
  status : Option String
  created_at : Option String
  resources : Option String
deriving DecidableEq, Repr

/-- One field of JS `{ ...base, ...delta }`: the delta wins whenever it
carries the field. -/
def jsSpreadField (delta base : Option String) : Option String :=
  match delta with
  | some v => some v
  | none => base

/-- JS `{ ...req, ...updatedRequest }` over the request fields. -/
def spreadMerge (base delta : ReqObj) : ReqObj :=
  { id := jsSpreadField delta.id base.id
    request_identifier := jsSpreadField delta.request_identifier base.request_identifier
    cloud_provider := jsSpreadField delta.cloud_provider base.cloud_provider
    environment := jsSpreadField delta.environment base.environment
    resource_type := jsSpreadField delta.resource_type base.resource_type
    status := jsSpreadField delta.status base.status
    created_at := jsSpreadField delta.created_at base.created_at
    resources := jsSpreadField delta.resources base.resources }

/-- The Dashboard request cache: the in-memory list plus its persisted copy
(`localStorage 'dashboard_requests'`). -/
structure DashState where
  requests : List ReqObj
  persisted : Option (List ReqObj)
deriving DecidableEq, Repr

/-- The per-entry step of the dashboard delta map: merge the delta into an
entry with the same `request_identifier`, leave others alone. -/
def mergeEntry (u r : ReqObj) : ReqObj :=
  if r.request_identifier = u.request_identifier then spreadMerge r u else r

/-- Dashboard.tsx `handleRequestUpdate` state update: shallow-merge the
delta into every entry with the same `request_identifier`; if no entry
matches, prepend the delta as a new entry; persist the result. -/
def handleRequestUpdate (st : DashState) (u : ReqObj) : DashState :=
  let updated := st.requests.map (mergeEntry u)
  if st.requests.any fun r =>
      decide (r.request_identifier = u.request_identifier) then
    { requests := updated, persisted := some updated }
  else
    { requests := u :: updated, persisted := some (u :: updated) }

/-- The tab-scoped / durable storage the Chat resume path reads and writes:
`localStorage 'login_time'`, and the per-user sessionStorage keys
`chat_session_<id>`, `chat_messages_<id>`, `chat_key_<id>` and
`greeting_shown_<id>`. -/
structure ChatSessionStorage where
  loginTime : Option String
  sessionMarker : Option String
  savedMessages : Option (List ChatMessage)
  savedKey : Option String
  greetingFlag : Bool
deriving DecidableEq, Repr

/-- JS truthiness of a nullable string. -/
def jsTruthyStr : Option String → Bool
  | some s => s ≠ ""
  | none => false

/-- The restore test of the Chat resume effect: the recorded session marker
strictly equals the current login time, a conversation key is saved, and
the saved transcript parses to a non-empty array. -/
def canRestoreConversation (st : ChatSessionStorage) : Bool :=
  st.sessionMarker == st.loginTime && jsTruthyStr st.savedKey &&
    (match st.savedMessages with
     | some l => l.length > 0
     | none => false)

/-- One run of the Chat resume effect over the session storage.  Returns
the storage afterwards and whether the welcome message was emitted.  On
restore nothing changes and no greeting is emitted; otherwise
`initializeNewConversation` clears the saved transcript and key, the
session marker is stamped with the login time when one exists, and
`addWelcomeMessage` emits the greeting only when the tab-scoped
`greeting_shown` flag is still unset, setting it. -/
def chatResume (st : ChatSessionStorage) : ChatSessionStorage × Bool :=
  if canRestoreConversation st then (st, false)
  else
    let st1 := { st with savedMessages := none, savedKey := none }
    let st2 :=
      if jsTruthyStr st.loginTime then { st1 with sessionMarker := st.loginTime }
      else st1
    if st2.greetingFlag then (st2, false)
    else ({ st2 with greetingFlag := true }, true)

/-- Run `n` successive resumes, counting how many emitted the greeting. -/
def chatResumeCount : ChatSessionStorage → Nat → ChatSessionStorage × Nat
  | st, 0 => (st, 0)
  | st, n + 1 =>
    let r := chatResume st
    let rest := chatResumeCount r.1 n
    (rest.1, (if r.2 then 1 else 0) + rest.2)

theorem jsSpreadField_self (a : Option String) : jsSpreadField a a = a := by
  cases a <;> rfl

theorem jsSpreadField_absorb (u b : Option String) :
    jsSpreadField u (jsSpreadField u b) = jsSpreadField u b := by
  cases u <;> rfl

theorem spreadMerge_absorb (r u : ReqObj) :
    spreadMerge (spreadMerge r u) u = spreadMerge r u := by
  simp [spreadMerge, jsSpreadField_absorb]

theorem spreadMerge_self (u : ReqObj) : spreadMerge u u = u := by
  simp [spreadMerge, jsSpreadField_self]

theorem spreadMerge_rid (r u : ReqObj)
    (h : r.request_identifier = u.request_identifier) :
    (spreadMerge r u).request_identifier = u.request_identifier := by
  simp [spreadMerge, ← h, jsSpreadField_self]

theorem mergeEntry_idem (u r : ReqObj) :
    mergeEntry u (mergeEntry u r) = mergeEntry u r := by
  unfold mergeEntry
  by_cases hp : r.request_identifier = u.request_identifier
  · simp [hp, spreadMerge_rid r u hp, spreadMerge_absorb]
  · simp [hp]

theorem map_mergeEntry_of_not_any (u : ReqObj) (l : List ReqObj)
    (h : (l.any fun r =>
      decide (r.request_identifier = u.request_identifier)) = false) :
    l.map (mergeEntry u) = l := by
  induction l with
  | nil => rfl
  | cons a l ih =>
    simp only [List.any_cons, Bool.or_eq_false_iff] at h
    simp [mergeEntry, of_decide_eq_false h.1, ih h.2]

theorem any_map_mergeEntry (u : ReqObj) (l : List ReqObj)
    (h : (l.any fun r =>
      decide (r.request_identifier = u.request_identifier)) = true) :
    ((l.map (mergeEntry u)).any fun r =>
      decide (r.request_identifier = u.request_identifier)) = true := by
  rw [List.any_eq_true] at h ⊢
  obtain ⟨r, hr, hp⟩ := h
  refine ⟨mergeEntry u r, List.mem_map_of_mem _ hr, ?_⟩
  have hp' := of_decide_eq_true hp
  simp [mergeEntry, hp', spreadMerge_rid r u hp']

/-- C5: applying the same request delta twice through the dashboard's
delta-application handler yields a cache (in-memory list and persisted
copy) identical to applying it once: the second application finds the
entry by `request_identifier` and shallow-merges identical field values,
so replay is a no-op beyond the first application. -/
theorem C5_request_delta_idempotent :
    ∀ (st : DashState) (u : ReqObj),
      handleRequestUpdate (handleRequestUpdate st u) u = handleRequestUpdate st u := by
  intro st u
  by_cases h : (st.requests.any fun r =>
      decide (r.request_identifier = u.request_identifier)) = true
  · have hmap : (st.requests.map (mergeEntry u)).map (mergeEntry u) =
        st.requests.map (mergeEntry u) := by
      rw [List.map_map]
      exact List.map_congr_left fun r _ => mergeEntry_idem u r
    simp only [handleRequestUpdate, h, if_true]
    simp [any_map_mergeEntry u _ h, hmap]
  · have h' : (st.requests.any fun r =>
        decide (r.request_identifier = u.request_identifier)) = false :=
      Bool.eq_false_iff.mpr h
    have hmap : st.requests.map (mergeEntry u) = st.requests :=
      map_mergeEntry_of_not_any u _ h'
    simp only [handleRequestUpdate, h', Bool.false_eq_true, if_false, hmap]
    have hhead : (mergeEntry u u) = u := by
      simp [mergeEntry, spreadMerge_self]
    simp [List.any_cons, hhead, hmap]

/-- C3: a close with an expected-termination code (1000 normal, 1001 going
away, 1005 no status, 1012 the designated reload code) never schedules a
reconnect; any other close code schedules exactly one reconnect after the
fixed 1000 ms delay, provided a user is present and a token is stored. -/
theorem C3_reconnect_policy :
    ∀ (code : Nat) (userPresent tokenPresent : Bool),
      ((code = 1000 ∨ code = 1001 ∨ code = 1005 ∨ code = 1012) →
        wsOnCloseReconnect code userPresent tokenPresent = none) ∧
      (code ≠ 1000 → code ≠ 1001 → code ≠ 1005 → code ≠ 1012 →
        userPresent = true → tokenPresent = true →
        wsOnCloseReconnect code userPresent tokenPresent = some 1000) := by
  intro code u t
  constructor
  · rintro (rfl | rfl | rfl | rfl) <;> simp [wsOnCloseReconnect]
  · intro h1 h2 h3 h4 hu ht
    subst hu; subst ht
    simp [wsOnCloseReconnect, h1, h2, h3, h4]

/-- Witness for C3 at the spec's reference inputs: code 1000 schedules
nothing, code 1006 schedules one reconnect after 1000 ms. -/
theorem C3_reconnect_policy_witness :
    wsOnCloseReconnect 1000 true true = none ∧
      wsOnCloseReconnect 1006 true true = some 1000 :=
  ⟨(C3_reconnect_policy 1000 true true).1 (Or.inl rfl),
   (C3_reconnect_policy 1006 true true).2 (by decide) (by decide) (by decide)
     (by decide) rfl rfl⟩

/-- C7 amended: `markRead` and `markAllRead` are local-first (the local
in-memory + durable update is the first step, and the resulting state is
the local update regardless of the remote outcome); `clearAll` contacts
the backend FIRST and clears locally afterwards, but its local clear also
happens regardless of the remote outcome — a remote failure never rolls
back (or prevents) the local state change in any of the three. -/
theorem C7_local_first_acks :
    (∀ (st : LayoutState) (id : String) (ok : Bool),
        (markNotificationAsRead st id ok).1 = markReadLocal st id ∧
        (markNotificationAsRead st id ok).2.head? = some AckAction.localWrite) ∧
    (∀ (st : LayoutState) (ok : Bool),
        (markAllNotificationsAsRead st ok).1 = markAllReadLocal st ∧
        (markAllNotificationsAsRead st ok).2.head? = some AckAction.localWrite) ∧
    (∀ (st : LayoutState) (ok : Bool),
        (clearAllNotifications st ok).1 = (clearAllNotifications st true).1 ∧
        AckAction.localWrite ∈ (clearAllNotifications st ok).2 ∧
        (clearAllNotifications st ok).2.head? = some AckAction.remoteCall) := by
  refine ⟨?_, ?_, ?_⟩
  · intro st id ok
    unfold markNotificationAsRead
    split_ifs <;> simp
  · intro st ok
    unfold markAllNotificationsAsRead
    split_ifs <;> simp
  · intro st ok
    unfold clearAllNotifications
    cases ok <;> simp

/-- C7 counterexample: `clearAllNotifications` is not local-first — its
first externally visible step is the remote call, not the local write. -/
theorem C7_counterexample :
    (clearAllNotifications
        ⟨[], 0, none, [], "", "info", false⟩ true).2.head? =
      some AckAction.remoteCall ∧
    decide ((clearAllNotifications
        ⟨[], 0, none, [], "", "info", false⟩ true).2.head? =
      some AckAction.localWrite) = false := by
  constructor
  · rfl
  · decide

/-- C8 amended: the notification poller is a fixed 30000 ms interval whose
tick fetches exactly when real-time updates are enabled and the document is
visible; the mount effect performs one immediate fetch, and the only window
event listener it installs is `storage` — nothing runs the poller on a
visibility regain. -/
theorem C8_polling_schedule :
    layoutPollingSetup.pollDelayMs = 30000 ∧
    layoutPollingSetup.initialFetchOnMount = true ∧
    (∀ (rtu : Bool) (vis : String),
        pollTickRuns rtu vis = true ↔ (rtu = true ∧ vis = "visible")) ∧
    layoutPollingSetup.windowListeners = ["storage"] := by
  refine ⟨rfl, rfl, ?_, rfl⟩
  intro rtu vis
  simp [pollTickRuns]

/-- Witness for C8 at concrete tick inputs. -/
theorem C8_polling_schedule_witness :
    pollTickRuns true "visible" = true ∧ layoutPollingSetup.pollDelayMs = 30000 :=
  ⟨(C8_polling_schedule.2.2.1 true "visible").mpr ⟨rfl, rfl⟩,
   C8_polling_schedule.1⟩

/-- C8 counterexample: the Layout notification effect registers no
visibility listener of any kind — `visibilitychange` is not among the
window or socket listeners it installs, so nothing runs the poller
immediately when the tab regains foreground visibility. -/
theorem C8_counterexample :
    layoutPollingSetup.windowListeners = ["storage"] ∧
    layoutPollingSetup.wsListeners = ["message"] ∧
    decide ("visibilitychange" ∈ layoutPollingSetup.windowListeners ∨
        "visibilitychange" ∈ layoutPollingSetup.wsListeners) = false := by
  refine ⟨rfl, rfl, ?_⟩
  decide

/-- C10: a push-delivered bell notification stores the wire message with
every `PR #<digits>` reference rewritten to `Pull Request`, while a
poll-imported notification stores the server message verbatim — the same
wire text is stored differently depending on the delivering channel. -/
theorem C10_channel_message_rewrite :
    (∀ (d : NotificationEvent) (messageId : String) (now : Int),
        (mkBellNotification d messageId now).message = replacePRrefs d.message) ∧
    (∀ n : DbNotification, (convertDb n).message = n.message) ∧
    replacePRrefs "Deployment for PR #123 finished" =
      "Deployment for Pull Request finished" ∧
    replacePRrefs "PR #7 and PR #42 merged" =
      "Pull Request and Pull Request merged" ∧
    replacePRrefs "no references here" = "no references here" ∧
    (mkBellNotification
        ⟨some "w_1", none, "T", "PR #5 ready", "info", ""⟩ "w_1" 0).message =
      "Pull Request ready" ∧
    (convertDb ⟨5, "T", "PR #5 ready", "queued", 0, false, ""⟩).message =
      "PR #5 ready" := by
  refine ⟨fun _ _ _ => rfl, fun _ => rfl, by decide, by decide, by decide,
    by decide, rfl⟩

theorem chatResume_flag_preserved (st : ChatSessionStorage)
    (h : st.greetingFlag = true) :
    (chatResume st).1.greetingFlag = true ∧ (chatResume st).2 = false := by
  unfold chatResume
  split_ifs <;> simp_all

theorem chatResume_emit_sets_flag (st : ChatSessionStorage)
    (h : (chatResume st).2 = true) :
    (chatResume st).1.greetingFlag = true := by
  unfold chatResume at h ⊢
  split_ifs at h ⊢ <;> simp_all <;> split <;> simp_all

theorem chatResumeCount_flag_zero (n : Nat) :
    ∀ (st : ChatSessionStorage), st.greetingFlag = true →
      (chatResumeCount st n).2 = 0 ∧
        (chatResumeCount st n).1.greetingFlag = true := by
  induction n with
  | zero => intro st h; exact ⟨rfl, h⟩
  | succ n ih =>
    intro st h
    obtain ⟨hf, he⟩ := chatResume_flag_preserved st h
    obtain ⟨hz, hf'⟩ := ih (chatResume st).1 hf
    simp [chatResumeCount, he, hz, hf']

/-- C9: within one browser session the greeting is shown at most once per
identity, across any number of resume runs — a resume that emits the
greeting sets the tab-scoped `greeting_shown` flag, and a resume that finds
the flag set never emits it. -/
theorem C9_greeting_once :
    ∀ (st : ChatSessionStorage) (n : Nat),
      (chatResumeCount st n).2 ≤ 1 ∧
      ((chatResume st).2 = true → (chatResume st).1.greetingFlag = true) ∧
      (st.greetingFlag = true → (chatResume st).2 = false) := by
  intro st n
  refine ⟨?_, chatResume_emit_sets_flag st, fun h => (chatResume_flag_preserved st h).2⟩
  induction n generalizing st with
  | zero => simp [chatResumeCount]
  | succ n ih =>
    by_cases he : (chatResume st).2 = true
    · have hf := chatResume_emit_sets_flag st he
      have hz := (chatResumeCount_flag_zero n (chatResume st).1 hf).1
      simp [chatResumeCount, he, hz]
    · have he' : (chatResume st).2 = false := Bool.eq_false_iff.mpr he
      simp only [chatResumeCount, he', if_false, Bool.false_eq_true]
      simpa using ih (chatResume st).1

/-- Witness for C9: a fresh storage emits the greeting and sets the flag;
a storage whose flag is already set emits nothing. -/
theorem C9_greeting_once_witness :
    (chatResume ⟨none, none, none, none, false⟩).1.greetingFlag = true ∧
    (chatResume ⟨none, none, none, none, true⟩).2 = false :=
  ⟨(C9_greeting_once ⟨none, none, none, none, false⟩ 0).2.1 (by decide),
   (C9_greeting_once ⟨none, none, none, none, true⟩ 0).2.2 rfl⟩

theorem filter_eq_nil_of_all {α : Type} (p : α → Bool) (l : List α)
    (h : ∀ a ∈ l, p a = false) : l.filter p = [] := by
  induction l with
  | nil => rfl
  | cons a l ih =>
    have ha := h a (List.mem_cons_self a l)
    simp [List.filter_cons, ha, ih fun b hb => h b (List.mem_cons_of_mem a hb)]

/-- C1 amended: a push-origin merge is a no-op exactly when the incoming
bell notification passes the push duplicate test (same title+message within
10 s, or the stored id contains the second underscore-separated segment of
the incoming messageId as a substring); a poll-origin merge whose fresh
fetched items are all content duplicates of the store within 30 s (the
only duplicate test the poll path applies — it has no id-based test against
the store) leaves the store's content, order, unread count, persisted copy
and popup unchanged. -/
theorem C1_idempotent_merge :
    (∀ (st : LayoutState) (bell : StoredNotification) (messageId : String),
        isPushDuplicate st.storedNotifications bell messageId = true →
        pushNotificationMerge st bell messageId = st) ∧
    (∀ (st : LayoutState) (db : List DbNotification) (now : Int) (snd : Bool),
        (∀ x ∈ (pollFreshRows db st.fetchedIds now).map convertDb,
            isContentDup30 st.storedNotifications x = true) →
        ((fetchOfflineNotifications st db now snd).state.storedNotifications =
            st.storedNotifications ∧
          (fetchOfflineNotifications st db now snd).state.notificationCount =
            st.notificationCount ∧
          (fetchOfflineNotifications st db now snd).state.persisted =
            st.persisted ∧
          (fetchOfflineNotifications st db now snd).popup = none)) := by
  constructor
  · intro st bell messageId h
    simp [pushNotificationMerge, h]
  · intro st db now snd h
    have hnil : pollUniqueNew st db now = [] :=
      filter_eq_nil_of_all _ _ fun x hx => by simp [h x hx]
    simp only [fetchOfflineNotifications, hnil]
    split_ifs <;> simp_all

/-- A store holding exactly one bell notification with id `bell_7`. -/
def c1State : LayoutState :=
  { storedNotifications :=
      [{ id := "bell_7", title := "A", message := "m", ntype := "info"
         timestamp := 0, read := false, details := "" }]
    notificationCount := 1
    persisted := some
      [{ id := "bell_7", title := "A", message := "m", ntype := "info"
         timestamp := 0, read := false, details := "" }]
    fetchedIds := []
    snackbarMessage := ""
    snackbarSeverity := "info"
    snackbarOpen := false }

/-- A push notification event with the explicit server id "7" (an id with
no underscore), different title/message, arriving 100 s later. -/
def c1Event : NotificationEvent :=
  { message_id := some "7", timestamp := none, title := "B", message := "x"
    notification_type := "info", payload := "" }

/-- C1 counterexample: the store already holds an item with the very same
explicit id (`bell_7`) that the incoming push event produces, yet the merge
adds a second item — the push id test is a substring check on
`messageId.split('_')[1]`, which for an id without an underscore compares
against the string "undefined" and never matches, so same-explicit-id
duplicates are not suppressed and the store's content changes. -/
theorem C1_counterexample :
    (mkBellNotification c1Event "7" 100000).id = "bell_7" ∧
    c1State.storedNotifications.map (fun n => n.id) = ["bell_7"] ∧
    (layoutHandleNotification c1State c1Event 100000).storedNotifications.length = 2 ∧
    c1State.storedNotifications.length = 1 ∧
    decide ((layoutHandleNotification c1State c1Event 100000).storedNotifications =
        c1State.storedNotifications) = false := by
  refine ⟨rfl, rfl, ?_, rfl, ?_⟩ <;> decide

/-- A one-element store used by the C1 witness. -/
def c1wState : LayoutState :=
  { storedNotifications :=
      [{ id := "bell_a", title := "T", message := "M", ntype := "info"
         timestamp := 0, read := false, details := "" }]
    notificationCount := 1
    persisted := none
    fetchedIds := []
    snackbarMessage := ""
    snackbarSeverity := "info"
    snackbarOpen := false }

/-- An incoming bell that is a content duplicate (same title and message,
5 s apart) of the stored one. -/
def c1wBell : StoredNotification :=
  { id := "bell_b", title := "T", message := "M", ntype := "info"
    timestamp := 5000, read := false, details := "" }

/-- Witness for C1 at concrete inputs: a content-duplicate push merge is a
no-op, and a poll run over an empty fetch fires no popup. -/
theorem C1_idempotent_merge_witness :
    pushNotificationMerge c1wState c1wBell "m_1" = c1wState ∧
    (fetchOfflineNotifications c1wState [] 0 false).popup = none :=
  ⟨C1_idempotent_merge.1 c1wState c1wBell "m_1" (by decide),
   (C1_idempotent_merge.2 c1wState [] 0 false (by simp [pollFreshRows])).2.2.2⟩

theorem pollUniqueNew_of_fresh_nil (st : LayoutState) (db : List DbNotification)
    (now : Int) (h : pollFreshRows db st.fetchedIds now = []) :
    pollUniqueNew st db now = [] := by
  simp [pollUniqueNew, h]

theorem fetchOffline_stored (st : LayoutState) (db : List DbNotification)
    (now : Int) (snd : Bool) :
    (fetchOfflineNotifications st db now snd).state.storedNotifications =
      if pollUniqueNew st db now = [] then st.storedNotifications
      else (pollUniqueNew st db now ++ st.storedNotifications).take 20 := by
  by_cases hfresh : (pollFreshRows db st.fetchedIds now).length > 0
  · cases hu : pollUniqueNew st db now with
    | nil => simp [fetchOfflineNotifications, hfresh, hu]
    | cons x xs => simp [fetchOfflineNotifications, hfresh, hu]
  · have hnil : pollFreshRows db st.fetchedIds now = [] :=
      List.length_eq_zero.mp (Nat.eq_zero_of_not_pos hfresh)
    have hu := pollUniqueNew_of_fresh_nil st db now hnil
    simp [fetchOfflineNotifications, hfresh, hu]

theorem fetchOffline_popup (st : LayoutState) (db : List DbNotification)
    (now : Int) (snd : Bool) :
    (fetchOfflineNotifications st db now snd).popup =
      (pollUniqueNew st db now).head? := by
  by_cases hfresh : (pollFreshRows db st.fetchedIds now).length > 0
  · cases hu : pollUniqueNew st db now with
    | nil => simp [fetchOfflineNotifications, hfresh, hu]
    | cons x xs => simp [fetchOfflineNotifications, hfresh, hu]
  · have hnil : pollFreshRows db st.fetchedIds now = [] :=
      List.length_eq_zero.mp (Nat.eq_zero_of_not_pos hfresh)
    have hu := pollUniqueNew_of_fresh_nil st db now hnil
    simp [fetchOfflineNotifications, hfresh, hu]

theorem fetchOffline_fetchedIds (st : LayoutState) (db : List DbNotification)
    (now : Int) (snd : Bool) :
    (fetchOfflineNotifications st db now snd).state.fetchedIds =
      st.fetchedIds ++ (pollFreshRows db st.fetchedIds now).map (fun n => n.id) := by
  by_cases hfresh : (pollFreshRows db st.fetchedIds now).length > 0
  · cases hu : pollUniqueNew st db now with
    | nil => simp [fetchOfflineNotifications, hfresh, hu]
    | cons x xs => simp [fetchOfflineNotifications, hfresh, hu]
  · have hnil : pollFreshRows db st.fetchedIds now = [] :=
      List.length_eq_zero.mp (Nat.eq_zero_of_not_pos hfresh)
    simp [fetchOfflineNotifications, hfresh, hnil]

theorem fetchOffline_sound (st : LayoutState) (db : List DbNotification)
    (now : Int) (snd : Bool) :
    (fetchOfflineNotifications st db now snd).soundPlayed =
      (snd && !(pollUniqueNew st db now).isEmpty) := by
  by_cases hfresh : (pollFreshRows db st.fetchedIds now).length > 0
  · cases hu : pollUniqueNew st db now with
    | nil => simp [fetchOfflineNotifications, hfresh, hu]
    | cons x xs => simp [fetchOfflineNotifications, hfresh, hu]
  · have hnil : pollFreshRows db st.fetchedIds now = [] :=
      List.length_eq_zero.mp (Nat.eq_zero_of_not_pos hfresh)
    have hu := pollUniqueNew_of_fresh_nil st db now hnil
    simp [fetchOfflineNotifications, hfresh, hu]

/-- C2 amended: a merge that adds at least one item truncates the store to
its cap (15 for push, 20 for poll) and keeps exactly the first cap elements
of the prepended list; a merge that adds nothing leaves the store as it
was, without truncation, so the size after a merge is bounded by the
maximum of the previous size and the cap.  Because the new items are
prepended positionally, the retained items are the most recent by creation
time only when the prepended list is already newest-first ordered (which
push merges preserve). -/
theorem C2_bounded_growth :
    (∀ (st : LayoutState) (bell : StoredNotification) (m : String),
        (pushNotificationMerge st bell m).storedNotifications.length ≤
          max st.storedNotifications.length 15) ∧
    (∀ (st : LayoutState) (bell : StoredNotification) (m : String),
        isPushDuplicate st.storedNotifications bell m = false →
        (pushNotificationMerge st bell m).storedNotifications =
          (bell :: st.storedNotifications).take 15) ∧
    (∀ (st : LayoutState) (db : List DbNotification) (now : Int) (snd : Bool),
        (fetchOfflineNotifications st db now snd).state.storedNotifications.length ≤
          max st.storedNotifications.length 20) ∧
    (∀ (st : LayoutState) (db : List DbNotification) (now : Int) (snd : Bool),
        pollUniqueNew st db now ≠ [] →
        (fetchOfflineNotifications st db now snd).state.storedNotifications =
          (pollUniqueNew st db now ++ st.storedNotifications).take 20) ∧
    (∀ (st : LayoutState) (bell : StoredNotification) (m : String),
        List.Chain' (fun a b => b.timestamp ≤ a.timestamp)
          (bell :: st.storedNotifications) →
        List.Chain' (fun a b => b.timestamp ≤ a.timestamp)
          (pushNotificationMerge st bell m).storedNotifications) := by
  refine ⟨?_, ?_, ?_, ?_, ?_⟩
  · intro st bell m
    unfold pushNotificationMerge
    split_ifs
    · exact le_max_left _ _
    · simp only [List.length_take, List.length_cons]
      omega
  · intro st bell m h
    simp [pushNotificationMerge, h]
  · intro st db now snd
    rw [fetchOffline_stored]
    split_ifs
    · exact le_max_left _ _
    · simp only [List.length_take, List.length_append]
      omega
  · intro st db now snd h
    rw [fetchOffline_stored, if_neg h]
  · intro st bell m h
    unfold pushNotificationMerge
    split_ifs
    · exact h.tail
    · exact h.take 15

/-- A store of 16 unread bell notifications (distinct titles). -/
def c2DupState : LayoutState :=
  { storedNotifications := (List.range 16).map fun i =>
      { id := "id" ++ toString i, title := "t" ++ toString i, message := "m"
        ntype := "info", timestamp := 0, read := false, details := "" }
    notificationCount := 16
    persisted := none
    fetchedIds := []
    snackbarMessage := ""
    snackbarSeverity := "info"
    snackbarOpen := false }

/-- A push bell that is a content duplicate of the first stored item. -/
def c2DupBell : StoredNotification :=
  { id := "x", title := "t0", message := "m", ntype := "info"
    timestamp := 5000, read := false, details := "" }

/-- A store of 20 unread notifications all created at time 100. -/
def c2PollState : LayoutState :=
  { storedNotifications := (List.range 20).map fun i =>
      { id := "p" ++ toString i, title := "q" ++ toString i, message := "m"
        ntype := "info", timestamp := 100, read := false, details := "" }
    notificationCount := 20
    persisted := none
    fetchedIds := []
    snackbarMessage := ""
    snackbarSeverity := "info"
    snackbarOpen := false }

/-- A poll row older (creation time 50) than everything in the store. -/
def c2Row : DbNotification :=
  { id := 1, title := "new", message := "n", status := "queued"
    created_at := 50, is_read := false, payload := "" }

/-- The newest-by-position-but-last stored item (creation time 100) that
the capacity-20 truncation evicts. -/
def c2DroppedItem : StoredNotification :=
  { id := "p19", title := "q19", message := "m", ntype := "info"
    timestamp := 100, read := false, details := "" }

/-- C2 counterexample.  First: a push merge of a duplicate into a
16-element store returns the store untruncated, so the size after a
push-triggered merge exceeds the cap 15.  Second: a poll merge of an older
item into a full store of newer items keeps the older incoming item (time
50) and evicts a stored item with creation time 100 — the retained items
are not the most recent by creation time. -/
theorem C2_counterexample :
    15 < (pushNotificationMerge c2DupState c2DupBell "m_9").storedNotifications.length ∧
    (fetchOfflineNotifications c2PollState [c2Row] 1000000 false).state.storedNotifications.length = 20 ∧
    (fetchOfflineNotifications c2PollState [c2Row] 1000000 false).state.storedNotifications.contains
      (convertDb c2Row) = true ∧
    c2PollState.storedNotifications.contains c2DroppedItem = true ∧
    (fetchOfflineNotifications c2PollState [c2Row] 1000000 false).state.storedNotifications.contains
      c2DroppedItem = false ∧
    (convertDb c2Row).timestamp < c2DroppedItem.timestamp := by
  refine ⟨?_, ?_, ?_, ?_, ?_, ?_⟩ <;> decide

/-- Witness for C2 at concrete inputs: a non-duplicate push merge into a
two-element newest-first store truncates to the prepended prefix and stays
sorted, and a poll merge with one genuinely new item prepends it. -/
theorem C2_bounded_growth_witness :
    (pushNotificationMerge c1State
        ⟨"bell_z", "Z", "z", "info", 20000, false, ""⟩ "zz").storedNotifications =
      (⟨"bell_z", "Z", "z", "info", 20000, false, ""⟩ ::
        c1State.storedNotifications).take 15 ∧
    (fetchOfflineNotifications c2PollState [c2Row] 1000000 false).state.storedNotifications =
      (pollUniqueNew c2PollState [c2Row] 1000000 ++
        c2PollState.storedNotifications).take 20 ∧
    List.Chain' (fun a b => b.timestamp ≤ a.timestamp)
      (pushNotificationMerge c1State
        ⟨"bell_z", "Z", "z", "info", 20000, false, ""⟩ "zz").storedNotifications :=
  ⟨C2_bounded_growth.2.1 c1State ⟨"bell_z", "Z", "z", "info", 20000, false, ""⟩
      "zz" (by decide),
   C2_bounded_growth.2.2.2.1 c2PollState [c2Row] 1000000 false (by decide),
   C2_bounded_growth.2.2.2.2 c1State ⟨"bell_z", "Z", "z", "info", 20000, false, ""⟩
      "zz" (by simp [c1State, List.chain'_cons])⟩

/-- An already stored push-delivered entry used in the C4 scenario. -/
def c4ExistingItem : StoredNotification :=
  { id := "bell_1", title := "T1", message := "M1", ntype := "info"
    timestamp := 100000, read := false, details := "" }

/-- Store holding just the push-delivered entry. -/
def c4ScenState : LayoutState :=
  { storedNotifications := [c4ExistingItem]
    notificationCount := 1
    persisted := none
    fetchedIds := []
    snackbarMessage := ""
    snackbarSeverity := "info"
    snackbarOpen := false }

/-- Newest fetched row of the C4 scenario. -/
def c4Row3 : DbNotification :=
  { id := 3, title := "T3", message := "M3", status := "queued"
    created_at := 120000, is_read := false, payload := "" }

/-- Middle fetched row of the C4 scenario. -/
def c4Row2 : DbNotification :=
  { id := 2, title := "T2", message := "M2", status := "queued"
    created_at := 110000, is_read := false, payload := "" }

/-- Fetched row duplicating the stored push entry within the 30 s window. -/
def c4Row1 : DbNotification :=
  { id := 1, title := "T1", message := "M1", status := "queued"
    created_at := 105000, is_read := false, payload := "" }

/-- C4 amended: each poller run deduplicates the fetched rows against the
imported-id checkpoint (`pollFreshRows`) and then against the store's
content within 30 s (`pollUniqueNew`); all surviving items are merged and
the checkpoint records every fresh row id.  When the surviving set is
non-empty exactly one popup fires — for the FIRST surviving item in fetch
order (`head?`), which is the most recent only when the server returns
rows newest-first.  In the spec's scenario (3 fetched rows newest-first,
one a 30 s duplicate of a stored push entry) exactly 2 items are added and
the single popup is for the newest of them. -/
theorem C4_poll_dedup_and_popup :
    (∀ (st : LayoutState) (db : List DbNotification) (now : Int) (snd : Bool),
        (fetchOfflineNotifications st db now snd).popup =
          (pollUniqueNew st db now).head? ∧
        (fetchOfflineNotifications st db now snd).state.storedNotifications =
          (if pollUniqueNew st db now = [] then st.storedNotifications
           else (pollUniqueNew st db now ++ st.storedNotifications).take 20) ∧
        (fetchOfflineNotifications st db now snd).state.fetchedIds =
          st.fetchedIds ++ (pollFreshRows db st.fetchedIds now).map (fun n => n.id) ∧
        (fetchOfflineNotifications st db now snd).soundPlayed =
          (snd && !(pollUniqueNew st db now).isEmpty)) ∧
    pollUniqueNew c4ScenState [c4Row3, c4Row2, c4Row1] 200000 =
      [convertDb c4Row3, convertDb c4Row2] ∧
    (fetchOfflineNotifications c4ScenState [c4Row3, c4Row2, c4Row1]
        200000 false).state.storedNotifications.length = 3 ∧
    (fetchOfflineNotifications c4ScenState [c4Row3, c4Row2, c4Row1]
        200000 false).popup = some (convertDb c4Row3) := by
  refine ⟨fun st db now snd =>
    ⟨fetchOffline_popup st db now snd, fetchOffline_stored st db now snd,
     fetchOffline_fetchedIds st db now snd, fetchOffline_sound st db now snd⟩,
    ?_, ?_, ?_⟩ <;> decide

/-- Oldest-first fetched row used in the C4 counterexample. -/
def c4RowOld : DbNotification :=
  { id := 10, title := "Old", message := "old msg", status := "queued"
    created_at := 50, is_read := false, payload := "" }

/-- The more recent fetched row of the C4 counterexample. -/
def c4RowNew : DbNotification :=
  { id := 11, title := "New", message := "new msg", status := "queued"
    created_at := 60, is_read := false, payload := "" }

/-- An empty notification store. -/
def c4EmptyState : LayoutState :=
  { storedNotifications := []
    notificationCount := 0
    persisted := none
    fetchedIds := []
    snackbarMessage := ""
    snackbarSeverity := "info"
    snackbarOpen := false }

/-- C4 counterexample: when the fetch returns rows oldest-first, both rows
are added but the single popup fires for the FIRST fetched row — the one
with the OLDER creation time — not for the most recent of the new items as
the claim states. -/
theorem C4_counterexample :
    (fetchOfflineNotifications c4EmptyState [c4RowOld, c4RowNew]
        3600000 false).popup = some (convertDb c4RowOld) ∧
    (convertDb c4RowOld).timestamp < (convertDb c4RowNew).timestamp ∧
    (fetchOfflineNotifications c4EmptyState [c4RowOld, c4RowNew]
        3600000 false).state.storedNotifications.contains (convertDb c4RowNew) = true := by
  refine ⟨?_, ?_, ?_⟩ <;> decide

theorem mem_processed_insert (l : List String) (id : String) :
    id ∈ (if 50 < l.length + 1
      then (l ++ [id]).drop (l.length - 24) else l ++ [id]) := by
  split_ifs with h
  · rw [List.drop_append_of_le_length (Nat.sub_le _ _)]
    exact List.mem_append_right _ (by simp)
  · exact List.mem_append_right _ (by simp)

/-- C6 amended: the chat-page router keeps a seen-message-id cache and an
event whose computed messageId is already in it is discarded with no state
change and no effect, while a new id is recorded before dispatch; the
layout router, however, consults no seen-id cache at all — a
`popup_notification` produces the popup-shown side effect on every
delivery, however often the same messageId arrives. -/
theorem C6_route_dedup :
    (∀ (st : ChatComponentState) (e : ChatWsEvent) (now : Int) (rand : String),
        st.processed.contains (mkChatMessageId e now rand) = true →
        chatHandleMessage st e now rand = (st, [])) ∧
    (∀ (st : ChatComponentState) (e : ChatWsEvent) (now : Int) (rand : String),
        st.processed.contains (mkChatMessageId e now rand) = false →
        mkChatMessageId e now rand ∈ (chatHandleMessage st e now rand).1.processed) ∧
    (∀ (st : LayoutState) (e : PopupEvent) (now : Int) (snd ws : Bool),
        (layoutHandlePopup st e now snd ws).2.head? =
          some (LayoutEffect.popupShown e.message (jsOrElseStr e.ptype "info"))) := by
  refine ⟨?_, ?_, ?_⟩
  · intro st e now rand h
    have hmem : mkChatMessageId e now rand ∈ st.processed := by simpa using h
    simp [chatHandleMessage, hmem]
  · intro st e now rand h
    have hmem : mkChatMessageId e now rand ∉ st.processed := by simpa using h
    cases e <;>
      simp [chatHandleMessage, hmem, chatAddMessage, mem_processed_insert]
  · intro st e now snd ws
    simp [layoutHandlePopup]

/-- An empty layout state used by the counterexamples. -/
def emptyLayoutState : LayoutState :=
  { storedNotifications := []
    notificationCount := 0
    persisted := none
    fetchedIds := []
    snackbarMessage := ""
    snackbarSeverity := "info"
    snackbarOpen := false }

/-- A popup event carrying the explicit server id `m_1`. -/
def c6Popup : PopupEvent :=
  { popup_id := "p1", title := "T", message := "M", ptype := some "info"
    message_id := some "m_1", timestamp := none }

/-- C6 counterexample: routing the SAME popup event (same computed
messageId `m_1`) twice through the layout handler produces the
popup-shown side effect both times — the second delivery is not discarded,
contradicting the claim that a duplicate messageId is dropped without side
effects for every event kind. -/
theorem C6_counterexample :
    mkMessageId c6Popup.message_id "popup_notification" c6Popup.timestamp 0 = "m_1" ∧
    (layoutHandlePopup emptyLayoutState c6Popup 0 false false).2 =
      [LayoutEffect.popupShown "M" "info"] ∧
    (layoutHandlePopup ((layoutHandlePopup emptyLayoutState c6Popup 0 false false).1)
        c6Popup 0 false false).2 =
      [LayoutEffect.popupShown "M" "info"] := by
  refine ⟨rfl, rfl, rfl⟩

/-- Chat state whose seen-id cache already holds `m_1`. -/
def c6SeenState : ChatComponentState :=
  { processed := ["m_1"], messages := [], savedMessages := none
    layoutNotifications := [], greetingShown := false, processing := false
    showTextInput := true }

/-- Chat state with an empty seen-id cache. -/
def c6FreshState : ChatComponentState :=
  { processed := [], messages := [], savedMessages := none
    layoutNotifications := [], greetingShown := false, processing := false
    showTextInput := true }

/-- A chat event with the explicit server id `m_1`. -/
def c6ChatEvent : ChatWsEvent := ChatWsEvent.connectionReady (some "m_1") none

/-- Witness for C6: the chat router drops the already-seen id `m_1` with no
state change and records a fresh one. -/
theorem C6_route_dedup_witness :
    chatHandleMessage c6SeenState c6ChatEvent 0 "r" = (c6SeenState, []) ∧
    "m_1" ∈ (chatHandleMessage c6FreshState c6ChatEvent 0 "r").1.processed :=
  ⟨C6_route_dedup.1 c6SeenState c6ChatEvent 0 "r" (by decide),
   C6_route_dedup.2.1 c6FreshState c6ChatEvent 0 "r" (by decide)⟩
